import Mathlib

/-!
Verification of the `bayesnest` monitoring core: a shallow embedding of
`bayesnest/base.py` (`BaseMonitor.__init__`, `write_log_line`, `run`),
`bayesnest/thermostat.py` (the pubsub `callback` and `_infinite_watch`),
and `bayesnest/weather.py` (`WeatherRecord.from_openweather_record`),
together with theorems settling the specification's claims about them.
-/

set_option autoImplicit false

namespace BayesNest

/-! ## Sample records and the CSV log file

A pydantic record is embedded as its declaration-ordered field names and
the serialized field values.  Both record classes in the repository
(`ThermostatStatus`, `WeatherRecord`) declare `time` as their first field,
so the embedding keeps the capture time explicit and first. -/

/-- A Sample Record: capture time plus the remaining declaration-ordered
field names and their serialized values. -/
structure Rec where
  time : Nat
  restFields : List String
  restValues : List String
deriving DecidableEq, Repr

/-- `tuple(status.__fields__.keys())`: field names in declaration order. -/
def Rec.fieldNames (r : Rec) : List String := "time" :: r.restFields

/-- Serialized values, aligned with `Rec.fieldNames`. -/
def Rec.fieldValues (r : Rec) : List String := toString r.time :: r.restValues

/-- The header line `DictWriter.writeheader` emits for a record. -/
def headerLine (r : Rec) : String := String.intercalate "," r.fieldNames

/-- The data line `DictWriter.writerow` emits for a record. -/
def rowLine (r : Rec) : String := String.intercalate "," r.fieldValues

/-- The state of a log file path: `none` when the file does not exist,
`some lines` when it exists and holds `lines`. -/
def FileState : Type := Option (List String)

/-- `BaseMonitor.write_log_line` (base.py lines 48-62): check whether the
file exists; open for append; write the header iff the file was absent;
write the record's row. -/
def write_log_line (status : Rec) (file : Option (List String)) : List String :=
  match file with
  | none => [headerLine status, rowLine status]
  | some lines => lines ++ [rowLine status]

/-- A sequence of consecutive successful `write_log_line` calls. -/
def writeMany (statuses : List Rec) (file : Option (List String)) :
    Option (List String) :=
  match statuses with
  | [] => file
  | r :: rest => writeMany rest (some (write_log_line r file))

/-! ## Log-path selection (`BaseMonitor.__init__`, base.py lines 18-37) -/

/-- The log-path logic of `BaseMonitor.__init__`: if `output_path` is
omitted it defaults to `f'{name}_log.csv'`, else the given path is used. -/
def initLogPath (name : String) (output_path : Option String) : String :=
  match output_path with
  | none => name ++ "_log.csv"
  | some p => p

/-- `ThermostatMonitor.__init__` calls `super().__init__(name='nest',
write_frequency=900)` with no `output_path`. -/
def thermostatLogPath : String := initLogPath "nest" none

/-- `WeatherMonitor.__init__` calls `super().__init__(daemon=True,
name='weather', write_frequency=600)` with no `output_path`. -/
def weatherLogPath : String := initLogPath "weather" none

/-! ## The scheduler loop (`BaseMonitor.run`, base.py lines 64-70)

The loop body is `status = self.get_log_record(); self.write_log_line(status);
logger.info(...); sleep(self.write_frequency)` with no exception handler:
any exception raised by the fetch or the append propagates out of `run` in
Python semantics, ending the thread.  The embedding threads an explicit
fetch oracle (per-cycle fetch outcome) and append oracle (whether the
append raises `IOError`), and returns either the file state after the
requested number of cycles or the propagated error with the file state at
the moment the loop died. -/

/-- The exception that escapes a cycle of `BaseMonitor.run`. -/
inductive CycleErr where
  | fetchError
  | ioError
deriving DecidableEq, Repr

/-- `BaseMonitor.run` for a bounded number of cycles `n`, starting from
cycle index `i` and file state `file`.  `fetch j` is the outcome of
`get_log_record()` at cycle `j` and `appendOk j` tells whether the append
at cycle `j` succeeds.  An exception at any cycle aborts the whole run
(the code has no `try`), returning the error and the file at that point. -/
def runFrom (fetch : Nat → Except Unit Rec) (appendOk : Nat → Bool) :
    Nat → Option (List String) → Nat →
    Except (CycleErr × Option (List String)) (Option (List String))
  | _, file, 0 => .ok file
  | i, file, n + 1 =>
    match fetch i with
    | .error _ => .error (.fetchError, file)
    | .ok r =>
      if appendOk i then
        runFrom fetch appendOk (i + 1) (some (write_log_line r file)) n
      else
        .error (.ioError, file)

/-- A fetch oracle that fails only at cycle 0 and afterwards returns a
fixed record: the input of the C1 counterexample. -/
def fetchFailsFirst : Nat → Except Unit Rec := fun i =>
  if i = 0 then .error () else .ok ⟨1, ["temp"], ["20"]⟩

/-- The wall-clock start of cycle `i` under interval `T`: the loop runs
its first cycle immediately and sleeps `T` between cycles (fetch and
append latency idealized to zero for the always-succeeding adapter). -/
def cycleStart (T i : Nat) : Nat := i * T

/-- `BaseMonitor.run` specialised to an always-succeeding adapter whose
record is a function of the wall clock at the moment `get_log_record()`
runs (cycle `i` starts at `cycleStart T i`); within a cycle the fetch
strictly precedes the append, which strictly precedes the sleep. -/
def runPure (getRecord : Nat → Rec) (T : Nat) :
    Nat → Option (List String) → Nat → Option (List String)
  | _, file, 0 => file
  | i, file, n + 1 =>
    runPure getRecord T (i + 1)
      (some (write_log_line (getRecord (cycleStart T i)) file)) n

/-- A stub adapter whose record is stamped with the clock at fetch time. -/
def stubRecord (t : Nat) : Rec := ⟨t, ["temp"], ["20"]⟩

/-! ## The push-event callback (`callback`, thermostat.py lines 125-140)

The callback parses the message, takes the last dot-component of each
updated trait, and if any lies in the allow-list performs
`self.get_log_record(); self.write_log_line(status)`; `message.ack()` is
the final statement, with no exception handler around the fetch or the
append.  The embedding records how many fetches ran, whether `ack` was
reached, the resulting file state, and whether an exception escaped. -/

/-- The `allowed_traits` list of `callback` (thermostat.py line 133). -/
def allowed_traits : List String :=
  ["ThermostatHvac", "ThermostatMode", "ThermostatTemperatureSetpoint"]

/-- Split a character list on a separator, keeping empty components, as
Python's `str.split` with an explicit separator does. -/
def splitOnChar (sep : Char) : List Char → List (List Char)
  | [] => [[]]
  | c :: rest =>
    if c = sep then [] :: splitOnChar sep rest
    else
      match splitOnChar sep rest with
      | [] => [[c]]
      | h :: t => (c :: h) :: t

/-- `t.split('.')[-1]`: the last dot-component of a trait identifier. -/
def lastComponent (t : String) : String :=
  String.mk ((splitOnChar '.' t.toList).getLastD [])

/-- `any(t in allowed_traits for t in traits)` over the shortened trait
names (thermostat.py lines 131-134). -/
def matchedTraits (traits : List String) : Bool :=
  (traits.map lastComponent).any (fun t => allowed_traits.contains t)

/-- Observable outcome of one `callback` invocation. -/
structure CbResult where
  fetchCalls : Nat
  acked : Bool
  file : Option (List String)
  raised : Bool
deriving DecidableEq, Repr

/-- The pubsub `callback`: filter the updated traits against
`allowed_traits`; on a match run the fetch and the append; finally call
`message.ack()`.  A fetch or append exception propagates out of the
callback before the `ack` line is reached. -/
def callback (traits : List String) (fetchResult : Except Unit Rec)
    (appendOk : Bool) (file : Option (List String)) : CbResult :=
  if matchedTraits traits then
    match fetchResult with
    | .error _ => ⟨1, false, file, true⟩
    | .ok status =>
      if appendOk then ⟨1, true, some (write_log_line status file), false⟩
      else ⟨1, false, file, true⟩
  else
    ⟨0, true, file, false⟩

/-- A fixed record used to instantiate callback and run theorems. -/
def recA : Rec := ⟨5, ["temp"], ["21"]⟩

/-! ## The subscription loop (`_infinite_watch`, thermostat.py lines 142-157)

Each iteration subscribes and blocks on `future.result()` inside
`try ... except KeyboardInterrupt: future.cancel(); break`.  Only
`KeyboardInterrupt` is caught (and exits the loop); any other exception —
in particular a transport error raised by `future.result()` — propagates
and terminates the thread.  The loop re-subscribes only when `result()`
returns normally. -/

/-- Outcome of `future.result()` for one subscription attempt. -/
inductive FutureOutcome where
  | normal
  | keyboardInterrupt
  | transportError
deriving DecidableEq, Repr

/-- How the watch loop ended. -/
inductive WatchExit where
  | cleanBreak
  | uncaught
deriving DecidableEq, Repr

/-- `_infinite_watch` run for at most `n` iterations starting at attempt
`i`: `none` means still looping after `n` iterations. -/
def infiniteWatch (results : Nat → FutureOutcome) : Nat → Nat → Option WatchExit
  | _, 0 => none
  | i, n + 1 =>
    match results i with
    | .normal => infiniteWatch results (i + 1) n
    | .keyboardInterrupt => some .cleanBreak
    | .transportError => some .uncaught

/-! ## Interleaving of two concurrent `write_log_line` calls

`write_log_line` performs its existence check (`self.log_path.exists()`)
and its writes as separate operations with no lock anywhere in the
repository.  The scheduled thread (`run`) and the pubsub callback thread
both call it on the same path; the model below splits one call into its
two atomic steps — (pc 0) read existence into the local `needs_header`,
(pc 1) append the header (if `needs_header`) and the row — and executes
two writers under an explicit schedule. -/

/-- The control state of one in-flight `write_log_line` call. -/
structure WriterState where
  pc : Nat
  needsHeader : Bool
deriving DecidableEq, Repr

/-- One atomic step of an in-flight `write_log_line` call. -/
def wstep (r : Rec) (w : WriterState) (file : Option (List String)) :
    WriterState × Option (List String) :=
  match w.pc with
  | 0 => (⟨1, file.isNone⟩, file)
  | 1 => (⟨2, w.needsHeader⟩,
      some ((file.getD []) ++
        (if w.needsHeader then [headerLine r, rowLine r] else [rowLine r])))
  | _ => (w, file)

/-- Run two concurrent `write_log_line` calls (writer 1 with record `r1`,
writer 2 with `r2`) under a schedule: `true` steps writer 1. -/
def interleave (r1 r2 : Rec) :
    List Bool → WriterState × WriterState × Option (List String) →
    WriterState × WriterState × Option (List String)
  | [], s => s
  | b :: rest, (w1, w2, file) =>
    if b then
      let s := wstep r1 w1 file
      interleave r1 r2 rest (s.1, w2, s.2)
    else
      let s := wstep r2 w2 file
      interleave r1 r2 rest (w1, s.1, s.2)

/-- The scheduled thread's record in the race scenario. -/
def recSched : Rec := ⟨1, ["temp"], ["20"]⟩

/-- The push-triggered record in the race scenario. -/
def recPush : Rec := ⟨2, ["temp"], ["21"]⟩

/-- Both writers read the existence check before either writes. -/
def raceSchedule : List Bool := [true, false, true, false]

/-- The file produced by the raced pair of `write_log_line` calls starting
from an absent file. -/
def raceResult : Option (List String) :=
  (interleave recSched recPush raceSchedule (⟨0, false⟩, ⟨0, false⟩, none)).2.2

/-! ## Weather records (`WeatherRecord.from_openweather_record`,
weather.py lines 51-79)

The OpenWeather response is embedded as a structure whose optional parts
(`rain`, `snow`, `wind.gust`) mirror the dictionary keys the code reads
with `.get`; the remaining keys are read unconditionally by the code and
so appear as required fields.  Numeric JSON values are carried as `Int`:
the code only passes them through, so their arithmetic type is inert. -/

/-- The optional `rain` / `snow` sub-dictionary: keys `1h` and `3h`. -/
structure Precip where
  h1 : Option Int
  h3 : Option Int
deriving DecidableEq, Repr

/-- The fields of an OpenWeather response that
`from_openweather_record` reads. -/
structure OWResponse where
  dt : Nat
  weather_id : Int
  weather_description : String
  main_temp : Int
  main_feels_like : Int
  main_humidity : Int
  main_pressure : Int
  wind_speed : Int
  wind_deg : Int
  wind_gust : Option Int
  clouds_all : Int
  rain : Option Precip
  snow : Option Precip
  sys_sunrise : Nat
  sys_sunset : Nat
deriving DecidableEq, Repr

/-- The `WeatherRecord` pydantic model (weather.py lines 17-49). -/
structure WeatherRecord where
  time : Nat
  condition_id : Int
  condition : String
  temp : Int
  feels_like : Int
  humidity : Int
  pressure : Int
  wind_speed : Int
  wind_dir : Int
  wind_gust : Option Int
  clouds : Int
  rain_1h : Int
  rain_3h : Int
  snow_1h : Int
  snow_3h : Int
  sunrise : Nat
  sunset : Nat
deriving DecidableEq, Repr

/-- `data.get('rain', {}).get('1h', 0)`: absent outer key yields the empty
dictionary, then an absent subkey yields 0. -/
def precipGet (p : Option Precip) (sub : Precip → Option Int) : Int :=
  match p with
  | none => 0
  | some q => (sub q).getD 0

/-- `WeatherRecord.from_openweather_record` (weather.py lines 51-79). -/
def from_openweather_record (data : OWResponse) : WeatherRecord :=
  { time := data.dt
    condition_id := data.weather_id
    condition := data.weather_description
    temp := data.main_temp
    feels_like := data.main_feels_like
    humidity := data.main_humidity
    pressure := data.main_pressure
    wind_speed := data.wind_speed
    wind_dir := data.wind_deg
    wind_gust := data.wind_gust
    clouds := data.clouds_all
    rain_1h := precipGet data.rain (fun q => q.h1)
    rain_3h := precipGet data.rain (fun q => q.h3)
    snow_1h := precipGet data.snow (fun q => q.h1)
    snow_3h := precipGet data.snow (fun q => q.h3)
    sunrise := data.sys_sunrise
    sunset := data.sys_sunset }

/-- How `csv.DictWriter` serializes an optional numeric field: `None`
becomes the empty field. -/
def serializeOptField (v : Option Int) : String :=
  match v with
  | none => ""
  | some x => toString x

/-- An OpenWeather response with no `rain`, no `snow` and no wind `gust`,
used to instantiate the C10 theorem. -/
def dryResponse : OWResponse :=
  { dt := 100
    weather_id := 800
    weather_description := "clear sky"
    main_temp := 21
    main_feels_like := 20
    main_humidity := 40
    main_pressure := 1013
    wind_speed := 3
    wind_deg := 180
    wind_gust := none
    clouds_all := 0
    rain := none
    snow := none
    sys_sunrise := 50
    sys_sunset := 150 }

/-! ## Helper lemmas -/

theorem writeMany_some (statuses : List Rec) (lines : List String) :
    writeMany statuses (some lines) = some (lines ++ statuses.map rowLine) := by
  induction statuses generalizing lines with
  | nil => simp [writeMany]
  | cons r rest ih => simp [writeMany, write_log_line, ih]

theorem runPure_some (getRecord : Nat → Rec) (T : Nat) (i : Nat)
    (lines : List String) (n : Nat) :
    runPure getRecord T i (some lines) n =
      some (lines ++ (List.range n).map
        (fun j => rowLine (getRecord (cycleStart T (i + j))))) := by
  induction n generalizing i lines with
  | zero => simp [runPure]
  | succ m ih =>
    rw [runPure, ih, List.range_succ_eq_map]
    simp [write_log_line, Function.comp, Nat.add_assoc, Nat.add_comm 1]

/-! ## Claim C2 -/

/-- Claim C2: for every record and log path, `write_log_line` writes, on a
path that does not exist, a file whose first line is the header derived
from the record's field names in declaration order followed by one record
line; on an existing path it appends exactly one record line, leaving all
pre-existing content (the header included) unchanged, without re-validating
the header against the record's field set — the same append equation holds
for every existing content and every record. -/
theorem c2_write_log_line_header_or_append (r : Rec) (lines : List String) :
    write_log_line r none = [headerLine r, rowLine r] ∧
    headerLine r = String.intercalate "," ("time" :: r.restFields) ∧
    write_log_line r (some lines) = lines ++ [rowLine r] := by
  refine ⟨rfl, rfl, rfl⟩

/-! ## Claim C7 -/

/-- Claim C7: N consecutive successful `write_log_line` calls against an
initially absent file produce exactly N+1 lines: the header, then the N
record lines in append order with none duplicated. -/
theorem c7_n_appends_fresh_file (r : Rec) (rest : List Rec) :
    writeMany (r :: rest) none =
      some (headerLine r :: (r :: rest).map rowLine) ∧
    (headerLine r :: (r :: rest).map rowLine).length = (r :: rest).length + 1 := by
  constructor
  · simp [writeMany, write_log_line, writeMany_some]
  · simp

/-! ## Claim C9 -/

/-- Claim C9: a monitor constructed with `output_path` omitted logs to
`<name>_log.csv` (`nest_log.csv` for the thermostat monitor,
`weather_log.csv` for the weather monitor), and an explicit `output_path`
is used verbatim. -/
theorem c9_default_log_path (name p : String) :
    initLogPath name none = name ++ "_log.csv" ∧
    initLogPath name (some p) = p ∧
    thermostatLogPath = "nest_log.csv" ∧
    weatherLogPath = "weather_log.csv" := by
  refine ⟨rfl, rfl, rfl, rfl⟩

/-! ## Claim C1 (corrected) -/

/-- Counterexample to claim C1: `BaseMonitor.run` has no exception
handler, so a run of two scheduled cycles whose first fetch raises
`FetchError` terminates at once with the error — the second cycle is never
attempted and the loop does not proceed to the next sleep, contradicting
"a failure never terminates the loop".  (The file is untouched: the failed
cycle did append zero lines.) -/
theorem c1_counterexample_fetch_error_kills_loop :
    runFrom fetchFailsFirst (fun _ => true) 0 none 2 =
      .error (.fetchError, none) := by
  rfl

/-- Claim C1 amended: `BaseMonitor.run` contains no exception handling; a
`FetchError` raised by `get_log_record` propagates and terminates the
loop, with zero lines appended for that cycle, and an `IOError` raised by
`write_log_line` propagates and terminates the loop, with that cycle's
record lost — in either case no further cycle is attempted. -/
theorem c1_amended_run_aborts (fetch : Nat → Except Unit Rec)
    (appendOk : Nat → Bool) (i : Nat) (file : Option (List String)) (n : Nat) :
    (fetch i = .error () →
      runFrom fetch appendOk i file (n + 1) = .error (.fetchError, file)) ∧
    (∀ r, fetch i = .ok r → appendOk i = false →
      runFrom fetch appendOk i file (n + 1) = .error (.ioError, file)) := by
  constructor
  · intro h
    simp [runFrom, h]
  · intro r h hno
    simp [runFrom, h, hno]

/-- Witness for the amended C1 theorem at concrete oracles. -/
theorem c1_amended_witness :
    runFrom fetchFailsFirst (fun _ => true) 0 none 3 =
      .error (.fetchError, none) ∧
    runFrom (fun _ => .ok recA) (fun _ => false) 0 none 3 =
      .error (.ioError, none) :=
  ⟨(c1_amended_run_aborts fetchFailsFirst (fun _ => true) 0 none 2).1 rfl,
   (c1_amended_run_aborts (fun _ => .ok recA) (fun _ => false) 0 none 2).2
     recA rfl rfl⟩

/-! ## Claim C8 -/

/-- Claim C8: the scheduler loop runs its first fetch+log cycle
immediately (cycle 0 starts at clock 0, before any sleep); with an
always-succeeding adapter, after k intervals have elapsed the log is the
header followed by exactly k+1 record lines — the record appended at cycle
i being the one fetched at that cycle's start — and, since each record is
stamped at fetch time, the time fields appear in non-decreasing order. -/
theorem c8_scheduler_cycles (g : Nat → Rec) (T k : Nat)
    (hg : ∀ t, (g t).time = t) :
    cycleStart T 0 = 0 ∧
    runPure g T 0 none (k + 1) =
      some (headerLine (g 0) ::
        (List.range (k + 1)).map (fun i => rowLine (g (cycleStart T i)))) ∧
    ((List.range (k + 1)).map
      (fun i => (g (cycleStart T i)).time)).Pairwise (· ≤ ·) := by
  refine ⟨Nat.zero_mul T, ?_, ?_⟩
  · rw [runPure, runPure_some, List.range_succ_eq_map]
    simp [write_log_line, cycleStart, Function.comp, Nat.add_comm 1,
      Nat.zero_mul]
  · rw [List.pairwise_map]
    refine (List.pairwise_lt_range (k + 1)).imp ?_
    intro a b hab
    simp only [hg, cycleStart]
    exact Nat.mul_le_mul hab.le (Nat.le_refl T)

/-- Witness for the C8 theorem: the clock-stamping stub adapter with
interval 2 and 2 elapsed intervals. -/
theorem c8_scheduler_cycles_witness :
    cycleStart 2 0 = 0 ∧
    runPure stubRecord 2 0 none (2 + 1) =
      some (headerLine (stubRecord 0) ::
        (List.range (2 + 1)).map (fun i => rowLine (stubRecord (cycleStart 2 i)))) ∧
    ((List.range (2 + 1)).map
      (fun i => (stubRecord (cycleStart 2 i)).time)).Pairwise (· ≤ ·) :=
  c8_scheduler_cycles stubRecord 2 2 (fun _ => rfl)

/-! ## Claim C4 (corrected) -/

/-- Counterexample to claim C4: an event matching the allow-list whose
triggered fetch raises leaves `message.ack()` unreached — the callback has
no handler around the fetch+append, and `ack` is its final statement — so
acknowledgment is conditioned on fetch success, contradicting "calls ack
exactly once regardless of whether the triggered fetch succeeded". -/
theorem c4_counterexample_ack_skipped :
    (callback ["sdm.devices.traits.ThermostatHvac"] (.error ()) true
      none).acked = false := by
  rfl

/-- Claim C4 amended: the callback acknowledges exactly once on every path
on which no exception escapes — always when the event does not match the
allow-list (no fetch attempted), and on matching events exactly when both
the triggered fetch and the log append succeed; a `FetchError` or
`IOError` propagates out of the callback before the `ack` line, so such an
event is never acknowledged. -/
theorem c4_amended_ack_iff_no_raise (traits : List String)
    (fr : Except Unit Rec) (appendOk : Bool) (file : Option (List String)) :
    (callback traits fr appendOk file).acked =
      (!matchedTraits traits || (fr.isOk && appendOk)) ∧
    (callback traits fr appendOk file).acked =
      !(callback traits fr appendOk file).raised := by
  cases fr <;> cases hm : matchedTraits traits <;> cases appendOk <;>
    simp [callback, hm, Except.isOk, Except.toBool]

/-! ## Claim C6 -/

/-- Claim C6: an event whose trait identifiers (after taking the last
dot-component, as the code does) are all outside the allow-list triggers
zero fetches and leaves the file unchanged but is still acknowledged;
conversely an event with at least one allow-listed trait triggers exactly
one fetch, and when that fetch and the append succeed the file is updated
by exactly the `write_log_line` call a scheduled cycle would perform. -/
theorem c6_filtering (traits : List String) (fr : Except Unit Rec)
    (appendOk : Bool) (file : Option (List String)) :
    (matchedTraits traits = false →
      (callback traits fr appendOk file).fetchCalls = 0 ∧
      (callback traits fr appendOk file).file = file ∧
      (callback traits fr appendOk file).acked = true) ∧
    (matchedTraits traits = true →
      (callback traits fr appendOk file).fetchCalls = 1 ∧
      ∀ r, fr = .ok r → appendOk = true →
        (callback traits fr appendOk file).file =
          some (write_log_line r file)) := by
  constructor
  · intro h
    simp [callback, h]
  · intro h
    constructor
    · cases fr with
      | error e => simp [callback, h]
      | ok r => cases appendOk <;> simp [callback, h]
    · rintro r rfl rfl
      simp [callback, h]

/-- Witness for the C6 theorem: a disjoint event (a humidity trait) and a
matching event (a mode trait) with a successful fetch. -/
theorem c6_filtering_witness :
    ((callback ["sdm.devices.traits.Humidity"] (.ok recA) true
        none).fetchCalls = 0 ∧
      (callback ["sdm.devices.traits.Humidity"] (.ok recA) true
        none).file = none ∧
      (callback ["sdm.devices.traits.Humidity"] (.ok recA) true
        none).acked = true) ∧
    ((callback ["sdm.devices.traits.ThermostatMode"] (.ok recA) true
        none).fetchCalls = 1 ∧
      (callback ["sdm.devices.traits.ThermostatMode"] (.ok recA) true
        none).file = some (write_log_line recA none)) :=
  ⟨(c6_filtering ["sdm.devices.traits.Humidity"] (.ok recA) true none).1 rfl,
   ⟨((c6_filtering ["sdm.devices.traits.ThermostatMode"] (.ok recA) true
       none).2 rfl).1,
    ((c6_filtering ["sdm.devices.traits.ThermostatMode"] (.ok recA) true
       none).2 rfl).2 recA rfl rfl⟩⟩

/-! ## Claim C5 (corrected) -/

/-- Counterexample to claim C5: a transport-level failure of
`future.result()` on the very first subscription attempt is not caught —
the `try` in `_infinite_watch` handles only `KeyboardInterrupt` — so the
exception propagates and terminates the listener thread instead of
triggering a resubscription. -/
theorem c5_counterexample_transport_error_kills_listener :
    infiniteWatch (fun _ => .transportError) 0 1 = some .uncaught := by
  rfl

/-- Claim C5 amended: `_infinite_watch` resubscribes only when
`future.result()` returns normally; `KeyboardInterrupt` is caught and
breaks out of the loop (after cancelling the future); any other exception
— a transport error included — propagates out of the loop and terminates
the listener thread. -/
theorem c5_amended_watch_loop (results : Nat → FutureOutcome) (i n : Nat) :
    (results i = .transportError →
      infiniteWatch results i (n + 1) = some .uncaught) ∧
    (results i = .keyboardInterrupt →
      infiniteWatch results i (n + 1) = some .cleanBreak) ∧
    (results i = .normal →
      infiniteWatch results i (n + 1) = infiniteWatch results (i + 1) n) := by
  refine ⟨fun h => ?_, fun h => ?_, fun h => ?_⟩ <;> simp [infiniteWatch, h]

/-- Witness for the amended C5 theorem at concrete outcome oracles. -/
theorem c5_amended_witness :
    infiniteWatch (fun _ => .transportError) 0 4 = some .uncaught ∧
    infiniteWatch (fun _ => .keyboardInterrupt) 0 4 = some .cleanBreak ∧
    infiniteWatch (fun _ => .normal) 0 4 =
      infiniteWatch (fun _ => .normal) 1 3 :=
  ⟨(c5_amended_watch_loop (fun _ => .transportError) 0 3).1 rfl,
   (c5_amended_watch_loop (fun _ => .keyboardInterrupt) 0 3).2.1 rfl,
   (c5_amended_watch_loop (fun _ => .normal) 0 3).2.2 rfl⟩

/-! ## Claim C3 (corrected) -/

/-- Counterexample to claim C3: under the schedule in which both the
scheduled writer and the push-triggered writer perform their existence
checks before either writes, the interleaved execution produces a
four-line file with a duplicated header — an outcome distinct from both
serialized orders of the two `write_log_line` calls — so the
header-check+append sequence is not an atomic unit and no per-file
mutual-exclusion primitive is in effect. -/
theorem c3_counterexample_interleaving :
    raceResult = some [headerLine recSched, rowLine recSched,
      headerLine recPush, rowLine recPush] ∧
    raceResult ≠ some (write_log_line recPush
      (some (write_log_line recSched none))) ∧
    raceResult ≠ some (write_log_line recSched
      (some (write_log_line recPush none))) := by
  refine ⟨rfl, ?_, ?_⟩ <;> decide

/-- Claim C3 amended: the repository provides no per-file
mutual-exclusion primitive; `write_log_line` runs its existence check and
its append as separate steps, so a scheduled sample and a push-triggered
sample for the same file can interleave those steps — when both observe
the file as missing, the raced execution writes the header twice, whereas
either serialized order of the two calls writes it exactly once. -/
theorem c3_amended_no_exclusion :
    (raceResult.getD []).countP (fun l => l = headerLine recSched) = 2 ∧
    (write_log_line recPush
      (some (write_log_line recSched none))).countP
        (fun l => l = headerLine recSched) = 1 ∧
    (write_log_line recSched
      (some (write_log_line recPush none))).countP
        (fun l => l = headerLine recSched) = 1 := by
  refine ⟨?_, ?_, ?_⟩ <;> decide

/-! ## Claim C10 -/

/-- Claim C10: `WeatherRecord.from_openweather_record` defaults
`rain_1h`, `rain_3h`, `snow_1h`, `snow_3h` to 0 whenever the `rain` or
`snow` key (or the `1h`/`3h` subkey) is absent, and passes the wind
`gust` key through as-is, so an absent gust yields `None` — serialized by
the CSV writer as an empty field; construction is total in these fields,
so their absence never makes it fail. -/
theorem c10_weather_optional_fields (data : OWResponse) :
    (data.rain = none → (from_openweather_record data).rain_1h = 0 ∧
      (from_openweather_record data).rain_3h = 0) ∧
    (data.snow = none → (from_openweather_record data).snow_1h = 0 ∧
      (from_openweather_record data).snow_3h = 0) ∧
    (∀ p, data.rain = some p → p.h1 = none →
      (from_openweather_record data).rain_1h = 0) ∧
    (∀ p, data.rain = some p → p.h3 = none →
      (from_openweather_record data).rain_3h = 0) ∧
    (∀ p, data.snow = some p → p.h1 = none →
      (from_openweather_record data).snow_1h = 0) ∧
    (∀ p, data.snow = some p → p.h3 = none →
      (from_openweather_record data).snow_3h = 0) ∧
    (from_openweather_record data).wind_gust = data.wind_gust ∧
    (data.wind_gust = none →
      serializeOptField (from_openweather_record data).wind_gust = "") := by
  repeat' constructor
  all_goals
    first
    | (intro h; simp [from_openweather_record, precipGet, serializeOptField, h])
    | (intro p hp hsub;
       simp [from_openweather_record, precipGet, hp, hsub])

/-- Witness for the C10 theorem: a response with no precipitation and no
gust data. -/
theorem c10_weather_optional_fields_witness :
    ((from_openweather_record dryResponse).rain_1h = 0 ∧
      (from_openweather_record dryResponse).rain_3h = 0) ∧
    ((from_openweather_record dryResponse).snow_1h = 0 ∧
      (from_openweather_record dryResponse).snow_3h = 0) ∧
    (from_openweather_record dryResponse).wind_gust = dryResponse.wind_gust ∧
    serializeOptField (from_openweather_record dryResponse).wind_gust = "" :=
  ⟨(c10_weather_optional_fields dryResponse).1 rfl,
   (c10_weather_optional_fields dryResponse).2.1 rfl,
   (c10_weather_optional_fields dryResponse).2.2.2.2.2.2.1,
   (c10_weather_optional_fields dryResponse).2.2.2.2.2.2.2 rfl⟩

end BayesNest
